import Mathlib

/-!
Shallow embedding of the `tinycc` package (`tinycc/__init__.py`).

The module has three functions: `find_tcc_path` (candidate search for the
bundled `tcc.exe`), `compile` (build a shell command line and run it), and
`data_files` (enumerate a packaging manifest).  Paths and command lines are
modelled as `List Char`; operating-system effects (`os.environ`,
`os.path.exists`, `os.system`, `glob.glob`, `os.walk`) are passed in as
oracle parameters.  The Python standard-library path helpers the module
calls (`os.path.join`, `os.path.splitext`) are modelled on their posixpath
definitions.
-/

namespace Tinycc

/-- A filesystem path (or any Python `str`), modelled as its character list. -/
abbrev Path := List Char

/-- Character list of a string literal. -/
def str (s : String) : Path := s.data

/-- Models `posixpath.join(a, b)`: an absolute second component discards the
first; otherwise the components are concatenated, inserting `'/'` unless the
first component is empty or already ends in `'/'`. -/
def joinpath (a b : Path) : Path :=
  if b.head? = some '/' then b
  else if a = [] ∨ a.getLast? = some '/' then a ++ b
  else a ++ '/' :: b

/-- Models the three-argument `posixpath.join(a, b, c)`, which folds from the
left. -/
def joinpath3 (a b c : Path) : Path := joinpath (joinpath a b) c

/-- Models Python's `str.rfind` restricted to a single character: the index of
the last occurrence, or `none` when absent. -/
def rfind? (c : Char) (p : Path) : Option Nat :=
  match p.reverse.findIdx? (fun x => x = c) with
  | none => none
  | some i => some (p.length - 1 - i)

/-- Models `posixpath.splitext(p)`: split off the extension at the last `'.'`
that lies strictly after the last `'/'`, unless every character between the
start of the basename and that dot is itself a dot (so dotfiles such as
`.bashrc` have no extension). -/
def splitext (p : Path) : Path × Path :=
  match rfind? '.' p with
  | none => (p, [])
  | some dotIndex =>
    -- `filenameIndex` in the Python source: one past the last separator.
    let nameStart := match rfind? '/' p with
      | none => 0
      | some s => s + 1
    if nameStart ≤ dotIndex then
      if ((p.drop nameStart).take (dotIndex - nameStart)).all (fun c => c = '.') then
        (p, [])
      else (p.take dotIndex, p.drop dotIndex)
    else (p, [])

/-- Models Python's `repr` on strings that contain no quote or escape
characters (the only use sites interpolate plain paths): the string wrapped in
single quotes. -/
def pyRepr (s : Path) : Path := '\'' :: (s ++ ['\''])

/-- Worker for `pyFormatMap`, structurally recursive on a fuel argument so
that it evaluates by kernel reduction.  The fuel is set to the template length
by `pyFormatMap`; each step consumes at least one character, so the
fuel-exhausted branch is never reached on its actual argument. -/
def pyFormatGo (m : String → Path) : Nat → Path → Path
  | 0, p => p
  | _ + 1, [] => []
  | fuel + 1, '%' :: '(' :: rest =>
    (match rest.dropWhile (fun c => c ≠ ')') with
     | ')' :: 's' :: tail =>
       m (String.mk (rest.takeWhile (fun c => c ≠ ')'))) ++ pyFormatGo m fuel tail
     | _ => '%' :: '(' :: pyFormatGo m fuel rest)
  | fuel + 1, c :: rest => c :: pyFormatGo m fuel rest

/-- Models Python `%`-formatting of a template against a string-keyed mapping,
for the `%(name)s` directives that occur in the module's one template; all
other characters pass through unchanged. -/
def pyFormatMap (m : String → Path) (p : Path) : Path := pyFormatGo m p.length p

/-- The Python exceptions the module can let escape. -/
inductive PyExc where
  | runtimeError (msg : Path)
  | importError (msg : Path)
  | typeError (msg : Path)
deriving DecidableEq

/-- `find_tcc_path` from the source.  Oracle parameters stand for the
process environment (`environ : String → Option Path`, the `TCC_ROOT`
lookup), `os.path.exists`, the package directory
`dirname(realpath(__file__))`, and `sys.executable`.

The third candidate in the source reads
`joinpath(realpath(dirname(sys.executable, 'tinycc-data', EXE)))`;
`os.path.dirname` takes a single positional argument, so this call raises
`TypeError` before any path is formed, and the `ImportError` at the end of
the function is unreachable.  The embedding returns that `TypeError` at the
point the source raises it. -/
def find_tcc_path (environ : String → Option Path) (pathExists : Path → Bool)
    (packageDir sysExecutable : Path) : Except PyExc Path :=
  let EXE := str "tcc.exe"
  -- Look for the TCC_PATH environment variable
  match environ "TCC_ROOT" with
  | some root =>
    let path := joinpath root EXE
    if pathExists path then .ok path
    else .error (.runtimeError (str "TCC_ROOT " ++ pyRepr root ++ str " does not contain tcc.exe"))
  | none =>
    -- Check in the tinycc package
    let path := joinpath packageDir EXE
    if pathExists path then .ok path
    else
      -- Check next to exe/zip file: `dirname(sys.executable, 'tinycc-data', EXE)`
      -- raises TypeError (dirname takes one positional argument), so the
      -- final `raise ImportError("Could not locate tcc.exe")` is dead code.
      .error (.typeError (str "dirname() takes 1 positional argument but 3 were given"))

/-- The module-level `TCC = '"%s"' % find_tcc_path()`: the resolved path
wrapped in double quotes. -/
def TCC_quoted (p : Path) : Path := '"' :: (p ++ ['"'])

/-- The post-state of one `os.system` call: the process exit status and the
`os.path.exists` predicate as observed after the command has run. -/
structure OS where
  run : Path → Int × (Path → Bool)

/-- The target chosen by `compile` (source lines 70-71): the explicit target
when given, otherwise `os.path.splitext(source)[0] + ".dll"`. -/
def resolvedTarget (source : Path) (targetArg : Option Path) : Path :=
  match targetArg with
  | some t => t
  | none => (splitext source).1 ++ str ".dll"

/-- The command template of `compile` (source line 72), exactly as written:
note the `$(target)s` where the module docstring has `%(target)s`. -/
def COMPILE (tcc : Path) : Path :=
  tcc ++ str " -shared -rdynamic -Wall %(source)s -o $(target)s"

/-- The formatted command of `compile` (source line 73):
`COMPILE % {"source": source, "target": target}`. -/
def compileCommand (tcc source target : Path) : Path :=
  pyFormatMap (fun k => if k = "source" then source else if k = "target" then target else [])
    (COMPILE tcc)

/-- `compile` from the source.  `tcc` stands for the module-level `TCC`
constant; `os` supplies the `os.system` call together with the
`os.path.exists` predicate that holds after it. -/
def compile (os : OS) (tcc source : Path) (targetArg : Option Path) : Except PyExc Path :=
  let target := resolvedTarget source targetArg
  let command := compileCommand tcc source target
  let res := os.run command
  let status := res.1
  let pathExists := res.2
  if status != 0 || !pathExists target then
    .error (.runtimeError (str "compile failed.  File is in " ++ pyRepr source))
  else .ok target

/-- Models Python's `patterns.split(',')`: split at every comma, keeping
empty pieces (so the empty string splits to one empty piece). -/
def pySplitComma : Path → List Path
  | [] => [[]]
  | ',' :: rest => [] :: pySplitComma rest
  | c :: rest =>
    match pySplitComma rest with
    | [] => [[c]]
    | piece :: pieces => (c :: piece) :: pieces

/-- `_find_files` from `data_files`: the destination is `'tinycc-data'`
joined with `path` (or `'tinycc-data'` itself when `path` is empty), and the
files are the globs of each comma-separated pattern under `ROOT/path`. -/
def _find_files (glob : Path → List Path) (ROOT : Path) (path : Path) (patterns : Path) :
    Path × List Path :=
  let target := if path = [] then str "tinycc-data" else joinpath (str "tinycc-data") path
  let files := (pySplitComma patterns).flatMap
    (fun pattern => glob (joinpath3 ROOT path pattern))
  (target, files)

/-- `data_files` from the source.  `glob` stands for `glob.glob`, and
`walkOut` for the `(path, dirs)` part of the triples yielded by
`os.walk(joinpath(ROOT, 'include'))` (the file component of each triple is
discarded by the source).  Entries appear in source order: the `include`
entry, one entry per walked subdirectory, then `lib`, `libtcc` and the root
patterns. -/
def data_files (glob : Path → List Path) (walkOut : List (Path × List Path)) (ROOT : Path) :
    List (Path × List Path) :=
  [_find_files glob ROOT (str "include") (str "*.h")]
  ++ walkOut.flatMap (fun pd =>
       let relative_path := pd.1.drop (ROOT.length + 1)
       pd.2.map (fun d => _find_files glob ROOT (joinpath relative_path d) (str "*.h")))
  ++ [_find_files glob ROOT (str "lib") (str "*"),
      _find_files glob ROOT (str "libtcc") (str "*"),
      _find_files glob ROOT [] (str "*.exe,*.dll")]

/-- Modelled from stdlib semantics: `os.walk(top)` yields only directories it
reached from `top`, so every yielded path extends `top` (the walk builds
paths by joining `top` with entry names), and the directory names in each
yielded triple are plain entry names: nonempty and free of the separator. -/
def WalkConsistent (ROOT : Path) (walkOut : List (Path × List Path)) : Prop :=
  ∀ pd ∈ walkOut,
    (∃ s, joinpath ROOT (str "include") ++ s = pd.1) ∧
    ∀ d ∈ pd.2, d ≠ [] ∧ '/' ∉ d

/-! ## Helper lemmas -/

lemma head?_joinpath_of_rel (a b : Path) (c : Char) (ha : a.head? = some c)
    (hb : b.head? ≠ some '/') : (joinpath a b).head? = some c := by
  have hane : a ≠ [] := by rintro rfl; simp at ha
  unfold joinpath
  rw [if_neg hb]
  split
  · rw [List.head?_append_of_ne_nil a hane, ha]
  · rw [List.head?_append_of_ne_nil a hane, ha]

lemma drop_head_include (ROOT s : Path) :
    ((joinpath ROOT (str "include") ++ s).drop (ROOT.length + 1)).head? = some 'i'
    ∨ ((joinpath ROOT (str "include") ++ s).drop (ROOT.length + 1)).head? = some 'n' := by
  have hinc : str "include" = 'i' :: 'n' :: str "clude" := rfl
  unfold joinpath
  rw [if_neg (by decide)]
  split
  case isTrue h =>
    rcases h with h | h
    · subst h
      right
      simp [hinc]
    · right
      rw [List.append_assoc, List.drop_append 1, hinc]
      simp
  case isFalse h =>
    left
    rw [List.append_assoc, List.drop_append 1]
    simp [hinc]

/-! ## Claim theorems -/

/-- C1 (code_bug evidence): the command `compile` builds has the fixed shape
up to the `-o`, but the template's `$(target)s` is not a `%`-directive, so
`%`-formatting leaves it as literal text and the target path never appears in
the executed command.  Here, with source `hello.c` and target `hello.dll`,
the command ends in `-o $(target)s` and does not contain `hello.dll`.  The
module docstring's own template uses `%(target)s`, so the `$` is a slip in
the code. -/
theorem compile_command_keeps_target_placeholder :
    compileCommand (TCC_quoted (str "/opt/tcc/tcc.exe")) (str "hello.c") (str "hello.dll")
      = str "\"/opt/tcc/tcc.exe\" -shared -rdynamic -Wall hello.c -o $(target)s"
    ∧ ¬ str "hello.dll" <:+:
        compileCommand (TCC_quoted (str "/opt/tcc/tcc.exe")) (str "hello.c") (str "hello.dll") := by
  decide

/-- C2 (code_bug evidence): with no `TCC_ROOT` override and no candidate
containing `tcc.exe`, `find_tcc_path` does not reach its
`ImportError("Could not locate tcc.exe")`: the third-candidate expression
calls `dirname` with three positional arguments, so a `TypeError` escapes to
the caller instead. -/
theorem find_tcc_path_no_candidates_typeerror :
    find_tcc_path (fun _ => none) (fun _ => false)
      (str "/site-packages/tinycc") (str "/opt/python/python.exe")
      = .error (.typeError (str "dirname() takes 1 positional argument but 3 were given")) := rfl

/-- C3 counterexample: with a filesystem on which nothing exists (every glob
is empty and the walk of the `include` tree yields nothing), the manifest
still contains the entry for the absent `lib` directory paired with an empty
file list, so the claim that no such entry ever appears is false. -/
theorem data_files_absent_lib_empty_entry :
    ∃ entry ∈ data_files (fun _ => []) [] (str "/r"),
      entry.1 = str "tinycc-data/lib" ∧ entry.2 = [] := by
  decide

/-- C3 amended: `data_files` appends the entry for each fixed directory
unconditionally; when the `lib` directory under the resolved root does not
exist, so that its glob yields no files, the manifest contains the entry
`('tinycc-data/lib', [])` with an empty file list. -/
theorem data_files_absent_lib_entry_included (glob : Path → List Path)
    (walkOut : List (Path × List Path)) (ROOT : Path)
    (habsent : glob (joinpath3 ROOT (str "lib") (str "*")) = []) :
    (str "tinycc-data/lib", ([] : List Path)) ∈ data_files glob walkOut ROOT := by
  have hlib : _find_files glob ROOT (str "lib") (str "*")
      = (str "tinycc-data/lib", glob (joinpath3 ROOT (str "lib") (str "*")) ++ []) := rfl
  have hlib2 : _find_files glob ROOT (str "lib") (str "*") = (str "tinycc-data/lib", []) := by
    rw [hlib, habsent]
    rfl
  refine List.mem_append_right _ ?_
  rw [← hlib2]
  exact List.mem_cons_self _ _

/-- Witness for the amended C3 theorem at a concrete empty filesystem. -/
theorem data_files_absent_lib_entry_included_witness :
    (fun _ => ([] : List Path)) (joinpath3 (str "/r") (str "lib") (str "*")) = []
    ∧ (str "tinycc-data/lib", ([] : List Path)) ∈ data_files (fun _ => []) [] (str "/r") :=
  ⟨rfl, data_files_absent_lib_entry_included _ _ _ rfl⟩

/-- C4: `compile` raises exactly when the spawned command's exit status is
nonzero or the expected output file does not exist after the command runs;
when neither failure condition holds it returns the target path. -/
theorem compile_error_iff_failed_or_missing (os : OS) (tcc source : Path)
    (targetArg : Option Path) :
    ((∃ msg, compile os tcc source targetArg = .error msg)
       ↔ ((os.run (compileCommand tcc source (resolvedTarget source targetArg))).1 ≠ 0
          ∨ (os.run (compileCommand tcc source (resolvedTarget source targetArg))).2
              (resolvedTarget source targetArg) = false))
    ∧ (((os.run (compileCommand tcc source (resolvedTarget source targetArg))).1 = 0
        ∧ (os.run (compileCommand tcc source (resolvedTarget source targetArg))).2
            (resolvedTarget source targetArg) = true)
       → compile os tcc source targetArg = .ok (resolvedTarget source targetArg)) := by
  constructor
  · constructor
    · intro hex
      obtain ⟨msg, hmsg⟩ := hex
      by_contra hcon
      push_neg at hcon
      obtain ⟨h1, h2⟩ := hcon
      simp only [ne_eq, Bool.not_eq_false] at h2
      simp [compile, h1, h2] at hmsg
    · intro hor
      refine ⟨.runtimeError (str "compile failed.  File is in " ++ pyRepr source), ?_⟩
      have hcond : ((os.run (compileCommand tcc source (resolvedTarget source targetArg))).1 != 0
          || !(os.run (compileCommand tcc source (resolvedTarget source targetArg))).2
               (resolvedTarget source targetArg)) = true := by
        rcases hor with h | h
        · simp [bne_iff_ne, h]
        · simp [h]
      simp [compile, hcond]
  · intro hand
    obtain ⟨h1, h2⟩ := hand
    simp [compile, h1, h2]

/-- Witness for C4 at a concrete always-succeeding command runner. -/
theorem compile_error_iff_failed_or_missing_witness :
    ((∃ msg, compile ⟨fun _ => ((0 : Int), fun _ => true)⟩ (str "T") (str "hello.c") none
        = .error msg)
       ↔ (((⟨fun _ => ((0 : Int), fun _ => true)⟩ : OS).run
             (compileCommand (str "T") (str "hello.c")
               (resolvedTarget (str "hello.c") none))).1 ≠ 0
          ∨ ((⟨fun _ => ((0 : Int), fun _ => true)⟩ : OS).run
               (compileCommand (str "T") (str "hello.c")
                 (resolvedTarget (str "hello.c") none))).2
              (resolvedTarget (str "hello.c") none) = false))
    ∧ ((((⟨fun _ => ((0 : Int), fun _ => true)⟩ : OS).run
           (compileCommand (str "T") (str "hello.c")
             (resolvedTarget (str "hello.c") none))).1 = 0
        ∧ ((⟨fun _ => ((0 : Int), fun _ => true)⟩ : OS).run
             (compileCommand (str "T") (str "hello.c")
               (resolvedTarget (str "hello.c") none))).2
            (resolvedTarget (str "hello.c") none) = true)
       → compile ⟨fun _ => ((0 : Int), fun _ => true)⟩ (str "T") (str "hello.c") none
           = .ok (resolvedTarget (str "hello.c") none)) :=
  compile_error_iff_failed_or_missing ⟨fun _ => ((0 : Int), fun _ => true)⟩
    (str "T") (str "hello.c") none

/-- C5: with the `TCC_ROOT` override set to a directory that does not contain
`tcc.exe`, `find_tcc_path` fails with the `RuntimeError` naming the override,
whatever the other candidate locations contain (the existence oracle is
arbitrary away from the override path, so no fallback happens). -/
theorem find_tcc_path_override_missing_error (environ : String → Option Path)
    (pathExists : Path → Bool) (packageDir sysExecutable root : Path)
    (henv : environ "TCC_ROOT" = some root)
    (hmiss : pathExists (joinpath root (str "tcc.exe")) = false) :
    find_tcc_path environ pathExists packageDir sysExecutable
      = .error (.runtimeError (str "TCC_ROOT " ++ pyRepr root ++ str " does not contain tcc.exe")) := by
  simp [find_tcc_path, henv, hmiss]

/-- Witness for C5: the executable exists everywhere except under the
override, yet the configuration error is still raised. -/
theorem find_tcc_path_override_missing_error_witness :
    (fun k => if k = "TCC_ROOT" then some (str "/tcc") else none) "TCC_ROOT" = some (str "/tcc")
    ∧ (fun p => !(p == str "/tcc/tcc.exe")) (joinpath (str "/tcc") (str "tcc.exe")) = false
    ∧ find_tcc_path (fun k => if k = "TCC_ROOT" then some (str "/tcc") else none)
        (fun p => !(p == str "/tcc/tcc.exe")) (str "/site-packages/tinycc")
        (str "/opt/python/python.exe")
      = .error (.runtimeError (str "TCC_ROOT " ++ pyRepr (str "/tcc")
          ++ str " does not contain tcc.exe")) :=
  ⟨rfl, by decide, find_tcc_path_override_missing_error _ _ _ _ _ rfl (by decide)⟩

/-- C6: with the `TCC_ROOT` override set to a directory containing `tcc.exe`,
`find_tcc_path` returns that directory joined with `tcc.exe`, whatever the
other candidates contain (they are quantified over and never consulted). -/
theorem find_tcc_path_override_found (environ : String → Option Path)
    (pathExists : Path → Bool) (packageDir sysExecutable root : Path)
    (henv : environ "TCC_ROOT" = some root)
    (hhit : pathExists (joinpath root (str "tcc.exe")) = true) :
    find_tcc_path environ pathExists packageDir sysExecutable
      = .ok (joinpath root (str "tcc.exe")) := by
  simp [find_tcc_path, henv, hhit]

/-- Witness for C6: every candidate contains the executable and the override
path is the one returned. -/
theorem find_tcc_path_override_found_witness :
    (fun k => if k = "TCC_ROOT" then some (str "/tcc") else none) "TCC_ROOT" = some (str "/tcc")
    ∧ (fun _ => true) (joinpath (str "/tcc") (str "tcc.exe")) = true
    ∧ find_tcc_path (fun k => if k = "TCC_ROOT" then some (str "/tcc") else none)
        (fun _ => true) (str "/site-packages/tinycc") (str "/opt/python/python.exe")
      = .ok (joinpath (str "/tcc") (str "tcc.exe")) :=
  ⟨rfl, rfl, find_tcc_path_override_found _ _ _ _ _ rfl rfl⟩

/-- C7: when `compile` is called without an explicit target and succeeds, the
path it returns is the source path with its extension replaced by `.dll`
(that is, `splitext(source)[0] + ".dll"`). -/
theorem compile_default_target_replaces_extension (os : OS) (tcc source p : Path)
    (h : compile os tcc source none = .ok p) :
    p = (splitext source).1 ++ str ".dll" := by
  simp only [compile, resolvedTarget] at h
  split at h
  · exact absurd h (by simp)
  · simpa using h.symm

/-- Witness for C7: compiling `hello.c` under an always-succeeding runner
returns `hello.dll`. -/
theorem compile_default_target_replaces_extension_witness :
    compile ⟨fun _ => ((0 : Int), fun _ => true)⟩ (str "T") (str "hello.c") none
      = .ok (str "hello.dll")
    ∧ str "hello.dll" = (splitext (str "hello.c")).1 ++ str ".dll" :=
  ⟨rfl, compile_default_target_replaces_extension ⟨fun _ => ((0 : Int), fun _ => true)⟩
    (str "T") (str "hello.c") (str "hello.dll") rfl⟩

/-- C8 (code_bug evidence): the override and package candidates are checked
in order, but when only the third candidate (`tinycc-data` next to
`sys.executable`) contains the executable, `find_tcc_path` raises `TypeError`
while computing that candidate instead of returning its path: `dirname` is
called with three positional arguments.  The second conjunct records that
under this existence oracle the intended third-candidate path does contain
the executable. -/
theorem find_tcc_path_third_candidate_typeerror :
    find_tcc_path (fun _ => none) (fun p => p == str "/opt/python/tinycc-data/tcc.exe")
      (str "/site-packages/tinycc") (str "/opt/python/python.exe")
      = .error (.typeError (str "dirname() takes 1 positional argument but 3 were given"))
    ∧ (fun p => p == str "/opt/python/tinycc-data/tcc.exe")
        (joinpath3 (str "/opt/python") (str "tinycc-data") (str "tcc.exe")) = true :=
  ⟨rfl, by decide⟩

/-- C9: when `compile` is called with an explicit target and succeeds, it
returns exactly the target argument it was given. -/
theorem compile_explicit_target_unchanged (os : OS) (tcc source t p : Path)
    (h : compile os tcc source (some t) = .ok p) :
    p = t := by
  simp only [compile, resolvedTarget] at h
  split at h
  · exact absurd h (by simp)
  · simpa using h.symm

/-- Witness for C9 at a concrete successful compilation with an explicit
target. -/
theorem compile_explicit_target_unchanged_witness :
    compile ⟨fun _ => ((0 : Int), fun _ => true)⟩ (str "T") (str "main.c")
      (some (str "out/custom.so")) = .ok (str "out/custom.so")
    ∧ str "out/custom.so" = str "out/custom.so" :=
  ⟨rfl, compile_explicit_target_unchanged ⟨fun _ => ((0 : Int), fun _ => true)⟩
    (str "T") (str "main.c") (str "out/custom.so") (str "out/custom.so") rfl⟩

/-- C10: every destination in the manifest returned by `data_files` is
`tinycc-data` itself or `tinycc-data` joined with a nonempty relative path,
for any globs and any `os.walk` output consistent with a real filesystem. -/
theorem data_files_dest_under_tinycc_data (glob : Path → List Path)
    (walkOut : List (Path × List Path)) (ROOT : Path)
    (hw : WalkConsistent ROOT walkOut) :
    ∀ entry ∈ data_files glob walkOut ROOT,
      entry.1 = str "tinycc-data"
      ∨ ∃ rel, rel ≠ [] ∧ rel.head? ≠ some '/' ∧ entry.1 = joinpath (str "tinycc-data") rel := by
  intro entry hentry
  rw [data_files, List.mem_append, List.mem_append] at hentry
  rcases hentry with (h | h) | h
  · rw [List.mem_singleton] at h
    subst h
    exact Or.inr ⟨str "include", by decide, by decide, rfl⟩
  · simp only [List.mem_flatMap, List.mem_map] at h
    obtain ⟨pd, hpd, d, hd, heq⟩ := h
    obtain ⟨⟨s, hs⟩, hdirs⟩ := hw pd hpd
    obtain ⟨hdne, hdnotsep⟩ := hdirs d hd
    have hrel := drop_head_include ROOT s
    rw [hs] at hrel
    have hdhead : d.head? ≠ some '/' := by
      intro hcontra
      exact hdnotsep (List.mem_of_mem_head? (Option.mem_def.mpr hcontra))
    have hpath : ∃ c, (joinpath (pd.1.drop (ROOT.length + 1)) d).head? = some c ∧ c ≠ '/' := by
      rcases hrel with hrel | hrel
      · exact ⟨'i', head?_joinpath_of_rel _ _ _ hrel hdhead, by decide⟩
      · exact ⟨'n', head?_joinpath_of_rel _ _ _ hrel hdhead, by decide⟩
    obtain ⟨c, hchead, hcne⟩ := hpath
    have hne : joinpath (pd.1.drop (ROOT.length + 1)) d ≠ [] := by
      intro hemp
      rw [hemp] at hchead
      simp at hchead
    refine Or.inr ⟨joinpath (pd.1.drop (ROOT.length + 1)) d, hne, ?_, ?_⟩
    · rw [hchead]
      simp [hcne]
    · rw [← heq]
      simp [_find_files, hne]
  · simp only [List.mem_cons, List.not_mem_nil, or_false] at h
    rcases h with h | h | h
    · subst h
      exact Or.inr ⟨str "lib", by decide, by decide, rfl⟩
    · subst h
      exact Or.inr ⟨str "libtcc", by decide, by decide, rfl⟩
    · subst h
      exact Or.inl rfl

/-- Witness for C10 at a concrete one-subdirectory walk. -/
theorem data_files_dest_under_tinycc_data_witness :
    WalkConsistent (str "/r") [(str "/r/include", [str "sub"])]
    ∧ ∀ entry ∈ data_files (fun _ => [str "x"]) [(str "/r/include", [str "sub"])] (str "/r"),
        entry.1 = str "tinycc-data"
        ∨ ∃ rel, rel ≠ [] ∧ rel.head? ≠ some '/' ∧ entry.1 = joinpath (str "tinycc-data") rel := by
  have hw : WalkConsistent (str "/r") [(str "/r/include", [str "sub"])] := by
    intro pd hpd
    rw [List.mem_singleton] at hpd
    subst hpd
    exact ⟨⟨[], by decide⟩, by decide⟩
  exact ⟨hw, data_files_dest_under_tinycc_data _ _ _ hw⟩

end Tinycc
